import Mathlib

/-!
Shallow embedding of the qulacs-visualizer sources:
  - src/qulacsvis/utils/gate.py          (gate-kind → LaTeX-token lookup)
  - src/qulacsvis/visualization/matplotlib.py  (layout grid + pixel-canvas adapter)
  - src/qulacsvis/visualization/latex.py (pdflatex compilation adapter)

Python floats in these files only ever hold small dyadic values (1, 0.5, ...),
so they are modelled exactly as rationals.  Python exceptions are modelled by
an `Except PyError` result; file-system and subprocess effects of the latex
adapter are modelled by explicit value passing (the subprocess outcome is an
input, the performed file writes are part of the output).
-/

/-- Python exception classes raised by this code base. -/
inductive PyError where
  | valueError (msg : String)
  | keyError (key : String)
  | exception (msg : String)
deriving Repr, DecidableEq

/-! ## src/qulacsvis/utils/gate.py -/

/-- The module-level dict `__TO_LATEX_STYLE_GATESTR_MAP`, in source order.
All keys are distinct, so association-list lookup models dict access. -/
def TO_LATEX_STYLE_GATESTR_MAP : List (String × String) :=
  [("", ""),
   ("I", "I"),
   ("X", "X"),
   ("Y", "Y"),
   ("Z", "Z"),
   ("H", "H"),
   ("S", "S"),
   ("Sdag", "S^\\dag"),
   ("T", "T"),
   ("Tdag", "T^\\dag"),
   ("sqrtX", "\\sqrt\x7bX\x7d"),
   ("sqrtXdag", "\\sqrt\x7bX^\\dag\x7d"),
   ("sqrtY", "\\sqrt\x7bY\x7d"),
   ("sqrtYdag", "\\sqrt\x7bY^\\dag\x7d"),
   ("Projection-0", "P0"),
   ("Projection-1", "P1"),
   ("U1", "U1"),
   ("U2", "U2"),
   ("U3", "U3"),
   ("X-rotation", "RX"),
   ("Y-rotation", "RY"),
   ("Z-rotation", "RZ"),
   ("Pauli", "Pauli"),
   ("Pauli-rotation", "PR"),
   ("CZ", "CZ"),
   ("CNOT", "\\targ"),
   ("SWAP", "SWAP"),
   ("Reflection", "Ref"),
   ("ReversibleBoolean", "ReB"),
   ("DenseMatrix", "DeM"),
   ("DinagonalMatrix", "DiM"),
   ("SparseMatrix", "SpM"),
   ("Generic gate", "GeG"),
   ("ParametricRX", "pRX"),
   ("ParametricRY", "pRY"),
   ("ParametricRZ", "pRZ"),
   ("ParametricPauliRotation", "pPR")]

/-- Association-list lookup, first match wins — Python dict access on a dict
with pairwise-distinct keys. -/
def lookupStr : List (String × String) → String → Option String
  | [], _ => none
  | (k, v) :: rest, s => if s = k then some v else lookupStr rest s

/-- `to_latex_style(gate_name)`: dict access; a missing key raises
`KeyError(gate_name)`. -/
def to_latex_style (gate_name : String) : Except PyError String :=
  match lookupStr TO_LATEX_STYLE_GATESTR_MAP gate_name with
  | some v => Except.ok v
  | none => Except.error (PyError.keyError gate_name)

/-! ## src/qulacsvis/visualization/matplotlib.py — data model -/

/-- Module constants. -/
def GATE_DEFAULT_WIDTH : ℚ := 1

def GATE_DEFAULT_HEIGHT : ℚ := 1

def GATE_MARGIN_RIGHT : ℚ := 1/2

def PORDER_GATE : Nat := 5

def PORDER_LINE : Nat := 3

def PORDER_REGLINE : Nat := 2

def PORDER_GRAY : Nat := 3

def PORDER_TEXT : Nat := 6

/-- The `GateData` TypedDict: one layout cell.  `control_bit` rows are qubit
indices (non-negative Python ints). -/
structure GateData where
  text : String
  width : ℚ
  height : ℚ
  raw_text : String
  control_bit : Option (List Nat)
  size : Nat
deriving Repr, DecidableEq, Inhabited

/-- `CircuitData = List[List[GateData]]`: one inner list per qubit row. -/
abbrev CircuitData := List (List GateData)

/-- Abstract model of the external `qulacs.QuantumCircuit` collaborator: it is
only ever passed around, never inspected by the code under analysis. -/
structure QuantumCircuit where
  qubit_count : Nat
  gate_names : List String
deriving Repr, DecidableEq

/-- `parse_circuit(circuit)`: the layout stage as implemented — it never reads
`circuit` and returns one hard-coded five-row grid (rows 0–4, row 4 empty),
transcribed cell for cell from the source. -/
def parse_circuit (_circuit : QuantumCircuit) : CircuitData :=
  [[GateData.mk "$I$" GATE_DEFAULT_WIDTH GATE_DEFAULT_HEIGHT "I" none 1,
    GateData.mk "$X$" GATE_DEFAULT_WIDTH GATE_DEFAULT_HEIGHT "X" none 1,
    GateData.mk "$Y$" GATE_DEFAULT_WIDTH GATE_DEFAULT_HEIGHT "Y" none 1,
    GateData.mk "$Z$" GATE_DEFAULT_WIDTH GATE_DEFAULT_HEIGHT "Z" none 1,
    GateData.mk "$H$" GATE_DEFAULT_WIDTH GATE_DEFAULT_HEIGHT "H" none 1,
    GateData.mk "$S$" GATE_DEFAULT_WIDTH GATE_DEFAULT_HEIGHT "S" none 1],
   [GateData.mk "$S^\\dagger$" GATE_DEFAULT_WIDTH GATE_DEFAULT_HEIGHT "Sdag" none 1,
    GateData.mk "$T$" GATE_DEFAULT_WIDTH GATE_DEFAULT_HEIGHT "T" none 1,
    GateData.mk "$T^\\dagger$" GATE_DEFAULT_WIDTH GATE_DEFAULT_HEIGHT "X" none 1],
   [GateData.mk "$CNOT$" GATE_DEFAULT_WIDTH GATE_DEFAULT_HEIGHT "CNOT" (some [3, 4]) 1,
    GateData.mk "$ghost$" GATE_DEFAULT_WIDTH GATE_DEFAULT_HEIGHT "ghost" none 1,
    GateData.mk "$DeM$" GATE_DEFAULT_WIDTH GATE_DEFAULT_HEIGHT "DenseMatrix" none 3],
   [GateData.mk "$ghost$" GATE_DEFAULT_WIDTH GATE_DEFAULT_HEIGHT "ghost" none 1,
    GateData.mk "$CNOT$" GATE_DEFAULT_WIDTH GATE_DEFAULT_HEIGHT "CNOT" (some [2, 4]) 1],
   []]

/-! ## src/qulacsvis/visualization/matplotlib.py — pixel-canvas adapter

Matplotlib calls are modelled as an emitted list of drawing commands; each
command records the arguments actually passed at the call site. -/

/-- One matplotlib primitive call. -/
inductive DrawCmd where
  | line (from_x from_y to_x to_y : ℚ) (lc ls : String) (lw : ℚ) (zorder : Nat)
  | text (x y : ℚ) (s : String) (fontsize : Nat) (color : String) (zorder : Nat)
  | rect (x y w h : ℚ) (fc ec : String) (lw : ℚ) (zorder : Nat)
  | circle (x y radius : ℚ) (fc ec : String) (zorder : Nat)
  | plotMarker (x y : ℚ) (marker color : String) (markersize markeredgewidth : ℚ)
      (zorder : Nat)
deriving Repr, DecidableEq

/-- `MPLCircuitlDrawer._gate(gate, col, row)`: one box plus its label. -/
def MPLCircuitlDrawer.gateCmds (g : GateData) (col row : Nat) : List DrawCmd :=
  let ypos : ℚ := (col : ℚ) * (GATE_DEFAULT_HEIGHT + GATE_MARGIN_RIGHT)
  let xpos : ℚ := (row : ℚ) * (GATE_DEFAULT_WIDTH + GATE_MARGIN_RIGHT)
  [DrawCmd.rect (xpos - (1/2) * g.width) (ypos - (1/2) * g.height) g.width g.height
     "b" "g" 3 PORDER_GATE,
   DrawCmd.text xpos ypos g.text 13 "r" PORDER_TEXT]

/-- `MPLCircuitlDrawer._multi_gate(gate, col, row)`: one box spanning
`size` rows plus its label. -/
def MPLCircuitlDrawer.multi_gate (g : GateData) (col row : Nat) : List DrawCmd :=
  let multi_gate_size : ℚ := (g.size : ℚ)
  let ypos : ℚ :=
    ((col : ℚ) * (GATE_DEFAULT_HEIGHT + GATE_MARGIN_RIGHT)
      + ((col : ℚ) + multi_gate_size - 1) * (GATE_DEFAULT_HEIGHT + GATE_MARGIN_RIGHT))
      * (1/2)
  let xpos : ℚ := (row : ℚ) * (GATE_DEFAULT_WIDTH + GATE_MARGIN_RIGHT)
  let multi_gate_height : ℚ :=
    g.height * multi_gate_size + GATE_MARGIN_RIGHT * (multi_gate_size - 1)
  [DrawCmd.rect (xpos - (1/2) * g.width) (ypos - (1/2) * multi_gate_height) g.width
     multi_gate_height "b" "g" 3 PORDER_GATE,
   DrawCmd.text xpos ypos g.text 13 "r" PORDER_TEXT]

/-- `MPLCircuitlDrawer._cnot(gate, col, row)`: raises `ValueError` when
`control_bit` is `None` or `[]`; otherwise draws the target glyph and, per
control row, a connector line and a control dot. -/
def MPLCircuitlDrawer.cnot (g : GateData) (col row : Nat) :
    Except PyError (List DrawCmd) :=
  let ypos : ℚ := (col : ℚ) * (GATE_DEFAULT_HEIGHT + GATE_MARGIN_RIGHT)
  let xpos : ℚ := (row : ℚ) * (GATE_DEFAULT_WIDTH + GATE_MARGIN_RIGHT)
  match g.control_bit with
  | none => Except.error (PyError.valueError "control_bit is None")
  | some [] => Except.error (PyError.valueError "control_bit is empty")
  | some cbs =>
    Except.ok
      ([DrawCmd.circle xpos ypos (2/5) "w" "g" PORDER_GATE,
        DrawCmd.plotMarker xpos ypos "+" "r" 10 3 PORDER_TEXT]
        ++ cbs.flatMap (fun control_bit =>
          let to_ypos : ℚ := (control_bit : ℚ) * (GATE_DEFAULT_HEIGHT + GATE_MARGIN_RIGHT)
          [DrawCmd.line xpos ypos xpos to_ypos "r" "-" 3 PORDER_LINE,
           DrawCmd.circle xpos to_ypos (1/5) "g" "r" PORDER_GATE]))

/-- The per-cell dispatch inside `MPLCircuitlDrawer.draw`: CNOT cells go to
`_cnot`, cells tagged `"ghost"` are skipped (`continue`), multi-row cells go
to `_multi_gate`, everything else to `_gate`.  `i` is the grid row,
`j` the column. -/
def MPLCircuitlDrawer.drawCell (g : GateData) (i j : Nat) :
    Except PyError (List DrawCmd) :=
  if g.raw_text = "CNOT" then MPLCircuitlDrawer.cnot g i j
  else if g.raw_text = "ghost" then Except.ok []
  else if g.size > 1 then Except.ok (MPLCircuitlDrawer.multi_gate g i j)
  else Except.ok (MPLCircuitlDrawer.gateCmds g i j)

/-- `draw`'s local `GATE_RIGHT_MARGIN` constant. -/
def GATE_RIGHT_MARGIN : ℚ := 1/2

/-- `max_line_length` as computed in `draw` (maximum row length times cell
pitch, minus the trailing margin). -/
def max_line_length (data : CircuitData) : ℚ :=
  (((data.map List.length).foldr max 0 : Nat) : ℚ)
    * (GATE_DEFAULT_WIDTH + GATE_RIGHT_MARGIN) - GATE_RIGHT_MARGIN

/-- The qubit label and horizontal wire emitted for row `i` in `draw`. -/
def MPLCircuitlDrawer.rowWireAndLabel (i : Nat) (mll : ℚ) : List DrawCmd :=
  let line_ypos : ℚ := (i : ℚ) * (GATE_DEFAULT_HEIGHT + GATE_MARGIN_RIGHT)
  [DrawCmd.text (-2) line_ypos ("$q_\x7b" ++ toString i ++ "\x7d$") 20 "r" PORDER_TEXT,
   DrawCmd.line (-1) line_ypos mll line_ypos "k" "-" 3 PORDER_LINE]

/-- The inner loop of `draw` over one row's cells, starting at column `j`. -/
def MPLCircuitlDrawer.drawCellsFrom (i : Nat) :
    Nat → List GateData → Except PyError (List DrawCmd)
  | _, [] => Except.ok []
  | j, g :: rest => do
    let cmds ← MPLCircuitlDrawer.drawCell g i j
    let restCmds ← MPLCircuitlDrawer.drawCellsFrom i (j + 1) rest
    Except.ok (cmds ++ restCmds)

/-- The outer loop of `draw` over rows, starting at row `i`. -/
def MPLCircuitlDrawer.drawRowsFrom (mll : ℚ) :
    Nat → List (List GateData) → Except PyError (List DrawCmd)
  | _, [] => Except.ok []
  | i, line :: rest => do
    let cellCmds ← MPLCircuitlDrawer.drawCellsFrom i 0 line
    let restCmds ← MPLCircuitlDrawer.drawRowsFrom mll (i + 1) rest
    Except.ok (MPLCircuitlDrawer.rowWireAndLabel i mll ++ cellCmds ++ restCmds)

/-- `MPLCircuitlDrawer.draw` on a laid-out grid: the full emitted command
list (axis setup aside), or the first exception raised. -/
def MPLCircuitlDrawer.draw (data : CircuitData) : Except PyError (List DrawCmd) :=
  MPLCircuitlDrawer.drawRowsFrom (max_line_length data) 0 data

/-! ## Span-integrity checker (claim C1's invariant, over `CircuitData`) -/

/-- The rows touched by the gate anchored at row `i`: its `size`-row body
span plus its control rows. -/
def touchedRows (i : Nat) (g : GateData) : List Nat :=
  (List.range g.size).map (fun k => i + k) ++ (g.control_bit.getD [])

/-- The cell stored at row `r`, column `c`, when both exist. -/
def cellAt (data : CircuitData) (r c : Nat) : Option GateData :=
  (data.getD r []).get? c

/-- Row `r` is covered at column `c` for the gate anchored at row `anchor`:
it is the anchor row itself, or holds a ghost cell at that column. -/
def rowCoveredB (data : CircuitData) (anchor c r : Nat) : Bool :=
  if r = anchor then true
  else
    match cellAt data r c with
    | some g => g.raw_text = "ghost"
    | none => false

/-- Span integrity of a grid: every non-ghost cell's touched-row range
(including every row strictly between its minimum and maximum touched row)
holds, at the cell's column, either the anchor cell itself or a ghost cell. -/
def spanIntegrityB (data : CircuitData) : Bool :=
  (List.range data.length).all fun i =>
    let row := data.getD i []
    (List.range row.length).all fun j =>
      let g := row.getD j default
      if g.raw_text = "ghost" then true
      else
        let touched := touchedRows i g
        let lo := touched.foldr min i
        let hi := touched.foldr max i
        (List.range (hi + 1 - lo)).all fun d => rowCoveredB data i j (lo + d)

/-! ## src/qulacsvis/visualization/latex.py -/

/-- One file write performed by the compilation adapter. -/
structure FileWrite where
  path : String
  contents : String
deriving Repr, DecidableEq

/-- Outcome of the `pdflatex` subprocess run inside `compile` (modelled as an
input: return code and captured output). -/
structure CompletedProcess where
  returncode : Int
  output : String
deriving Repr, DecidableEq

/-- `LatexCompiler.compile(code, filename)`: writes the `.tex` source into the
temporary directory and runs `pdflatex` (whose outcome is `run`).  On
non-zero exit (`subprocess.run(check=True)` raises `CalledProcessError`), the
captured output is written to `latex_error.log` and an exception naming that
log file is raised; on zero exit it returns normally.  The first component
lists the file writes performed, the second the control-flow outcome. -/
def LatexCompiler.compile (code filename tmpdir : String) (run : CompletedProcess) :
    List FileWrite × Except PyError Unit :=
  let texfile : FileWrite := FileWrite.mk (tmpdir ++ "/" ++ filename ++ ".tex") code
  if run.returncode ≠ 0 then
    ([texfile, FileWrite.mk "latex_error.log" run.output],
      Except.error (PyError.exception "`pdflatex` failed. See `latex_error.log`"))
  else
    ([texfile], Except.ok ())

/-- Outcome of the `pdflatex --version` probe run by `has_pdflatex`:
either the subprocess completed (with any return code — no `check=True`
here), or spawning it raised `FileNotFoundError`. -/
inductive VersionRunOutcome where
  | completed (returncode : Int)
  | fileNotFound
deriving Repr, DecidableEq

/-- `LatexCompiler.has_pdflatex()`: true unless the probe raises
`FileNotFoundError`. -/
def LatexCompiler.has_pdflatex (r : VersionRunOutcome) : Bool :=
  match r with
  | VersionRunOutcome.completed _ => true
  | VersionRunOutcome.fileNotFound => false

/-- `LatexCompiler.__init__()`: raises `Exception("pdflatex not found.")`
when `has_pdflatex` is false, else constructs normally. -/
def LatexCompiler.init (r : VersionRunOutcome) : Except PyError Unit :=
  if LatexCompiler.has_pdflatex r = false then
    Except.error (PyError.exception "pdflatex not found.")
  else
    Except.ok ()

/-! ## Helper lemmas -/

theorem lookupStr_eq_none_iff (l : List (String × String)) (s : String) :
    lookupStr l s = none ↔ s ∉ l.map Prod.fst := by
  induction l with
  | nil => simp [lookupStr]
  | cons p rest ih =>
    obtain ⟨k, v⟩ := p
    by_cases h : s = k
    · subst h; simp [lookupStr]
    · simp [lookupStr, h, ih]

theorem lookupStr_map_self :
    ∀ p ∈ TO_LATEX_STYLE_GATESTR_MAP,
      lookupStr TO_LATEX_STYLE_GATESTR_MAP p.1 = some p.2 := by
  decide

/-! ## Claims -/

/-- C1: the claim asserts span integrity of the grid produced by
`parse_circuit` — every row in a gate cell's touched range carries, at the
gate's column, the anchor cell or a ghost cell.  The hard-coded grid the code
actually returns violates this: its CNOT cell at row 2, column 0 touches
control rows 3 and 4, but row 4 is empty, so no cell at all exists at
(row 4, column 0). -/
theorem parse_circuit_violates_span_integrity :
    spanIntegrityB (parse_circuit (QuantumCircuit.mk 5 [])) = false ∧
    cellAt (parse_circuit (QuantumCircuit.mk 5 [])) 2 0 =
      some (GateData.mk "$CNOT$" 1 1 "CNOT" (some [3, 4]) 1) ∧
    (4 ∈ touchedRows 2 (GateData.mk "$CNOT$" 1 1 "CNOT" (some [3, 4]) 1) ∧
      cellAt (parse_circuit (QuantumCircuit.mk 5 [])) 4 0 = none) := by
  refine ⟨by decide, by decide, by decide, by decide⟩

/-- C2: layout is deterministic — `parse_circuit` applied twice to the same
input yields the same `CircuitData` (the embedding is a pure function; the
source uses no randomness). -/
theorem parse_circuit_deterministic (c c' : QuantumCircuit) (h : c = c') :
    parse_circuit c = parse_circuit c' := by rw [h]

theorem parse_circuit_deterministic_witness :
    parse_circuit (QuantumCircuit.mk 3 ["H"]) = parse_circuit (QuantumCircuit.mk 3 ["H"]) :=
  parse_circuit_deterministic (QuantumCircuit.mk 3 ["H"]) (QuantumCircuit.mk 3 ["H"]) rfl

/-- C3: `parse_circuit` ignores its circuit argument entirely — any two
inputs produce the same grid, and that grid has exactly five rows. -/
theorem parse_circuit_ignores_input (c₁ c₂ : QuantumCircuit) :
    parse_circuit c₁ = parse_circuit c₂ ∧ (parse_circuit c₁).length = 5 :=
  ⟨rfl, rfl⟩

/-- C4: in `draw`'s per-cell dispatch, a cell whose `raw_text` is the
`"ghost"` sentinel is skipped (`continue`): it contributes no drawing
command at all. -/
theorem draw_skips_ghost_cells (g : GateData) (i j : Nat)
    (h : g.raw_text = "ghost") :
    MPLCircuitlDrawer.drawCell g i j = Except.ok [] := by
  simp [MPLCircuitlDrawer.drawCell, h]

theorem draw_skips_ghost_cells_witness :
    MPLCircuitlDrawer.drawCell (GateData.mk "$ghost$" 1 1 "ghost" none 1) 3 0 =
      Except.ok [] :=
  draw_skips_ghost_cells (GateData.mk "$ghost$" 1 1 "ghost" none 1) 3 0 rfl

/-- C5: `_cnot` raises a `ValueError` exactly when the cell carries no control
rows (`control_bit` is `None` or the empty list); with a non-empty control
list no error of any kind is raised. -/
theorem cnot_error_iff_no_controls (g : GateData) (col row : Nat) :
    (∃ e, MPLCircuitlDrawer.cnot g col row = Except.error e) ↔
      (g.control_bit = none ∨ g.control_bit = some []) := by
  rcases hcb : g.control_bit with _ | ⟨_ | ⟨c, cbs⟩⟩ <;>
    simp [MPLCircuitlDrawer.cnot, hcb]

/-- C5 (error class): whenever `_cnot` errors, the error is a `ValueError`. -/
theorem cnot_error_is_valueerror (g : GateData) (col row : Nat) (e : PyError)
    (h : MPLCircuitlDrawer.cnot g col row = Except.error e) :
    e = PyError.valueError "control_bit is None" ∨
      e = PyError.valueError "control_bit is empty" := by
  rcases hcb : g.control_bit with _ | ⟨_ | ⟨c, cbs⟩⟩ <;>
    simp [MPLCircuitlDrawer.cnot, hcb] at h <;> simp [h]

theorem cnot_error_is_valueerror_witness :
    PyError.valueError "control_bit is None" = PyError.valueError "control_bit is None" ∨
      PyError.valueError "control_bit is None" = PyError.valueError "control_bit is empty" :=
  cnot_error_is_valueerror (GateData.mk "$CNOT$" 1 1 "CNOT" none 1) 0 0
    (PyError.valueError "control_bit is None") rfl

/-- C6: `to_latex_style` raises a `KeyError` exactly when the tag is not a
key of the lookup table (never emitting a blank or default token instead),
and for every entry of the table returns that entry's token. -/
theorem to_latex_style_lookup_spec (s : String) :
    ((∃ e, to_latex_style s = Except.error e) ↔
        s ∉ TO_LATEX_STYLE_GATESTR_MAP.map Prod.fst) ∧
    (∀ p ∈ TO_LATEX_STYLE_GATESTR_MAP, to_latex_style p.1 = Except.ok p.2) := by
  constructor
  · rw [← lookupStr_eq_none_iff TO_LATEX_STYLE_GATESTR_MAP s]
    cases hl : lookupStr TO_LATEX_STYLE_GATESTR_MAP s with
    | none => simp [to_latex_style, hl]
    | some v => simp [to_latex_style, hl]
  · intro p hp
    simp [to_latex_style, lookupStr_map_self p hp]

theorem to_latex_style_lookup_spec_witness :
    to_latex_style "Sdag" = Except.ok "S^\\dag" :=
  (to_latex_style_lookup_spec "Sdag").2 ("Sdag", "S^\\dag") (by decide)

/-- C7: the example rows of the gate-kind → display-token table. -/
theorem to_latex_style_examples :
    to_latex_style "H" = Except.ok "H" ∧
    to_latex_style "X-rotation" = Except.ok "RX" ∧
    to_latex_style "CNOT" = Except.ok "\\targ" ∧
    to_latex_style "Pauli-rotation" = Except.ok "PR" ∧
    to_latex_style "ParametricRZ" = Except.ok "pRZ" :=
  ⟨rfl, rfl, rfl, rfl, rfl⟩

/-- C8: a REAL cell with `size > 1` (dispatched to `_multi_gate`; CNOT cells
take the glyph path instead) is drawn as a box of width `g.width` and height
`g.height · size + GATE_MARGIN_RIGHT · (size − 1)`, with
`GATE_MARGIN_RIGHT = 1/2`. -/
theorem multi_gate_box_dims (g : GateData) (col row : Nat)
    (h1 : g.raw_text ≠ "CNOT") (h2 : g.raw_text ≠ "ghost") (h3 : g.size > 1) :
    MPLCircuitlDrawer.drawCell g col row =
      Except.ok (MPLCircuitlDrawer.multi_gate g col row) ∧
    (∃ x y, (MPLCircuitlDrawer.multi_gate g col row).head? =
      some (DrawCmd.rect x y g.width
        (g.height * (g.size : ℚ) + GATE_MARGIN_RIGHT * ((g.size : ℚ) - 1))
        "b" "g" 3 PORDER_GATE)) ∧
    GATE_MARGIN_RIGHT = 1/2 :=
  ⟨by simp [MPLCircuitlDrawer.drawCell, h1, h2, h3], ⟨_, _, rfl⟩, rfl⟩

theorem multi_gate_box_dims_witness :
    MPLCircuitlDrawer.drawCell (GateData.mk "$DeM$" 1 1 "DenseMatrix" none 3) 2 2 =
      Except.ok (MPLCircuitlDrawer.multi_gate
        (GateData.mk "$DeM$" 1 1 "DenseMatrix" none 3) 2 2) ∧
    (∃ x y, (MPLCircuitlDrawer.multi_gate
        (GateData.mk "$DeM$" 1 1 "DenseMatrix" none 3) 2 2).head? =
      some (DrawCmd.rect x y (GateData.mk "$DeM$" 1 1 "DenseMatrix" none 3).width
        ((GateData.mk "$DeM$" 1 1 "DenseMatrix" none 3).height * ((3 : Nat) : ℚ)
          + GATE_MARGIN_RIGHT * (((3 : Nat) : ℚ) - 1))
        "b" "g" 3 PORDER_GATE)) ∧
    GATE_MARGIN_RIGHT = 1/2 :=
  multi_gate_box_dims (GateData.mk "$DeM$" 1 1 "DenseMatrix" none 3) 2 2
    (by decide) (by decide) (by decide)

/-- C9: on non-zero subprocess exit, `compile` writes the captured output to
`latex_error.log` and raises an exception naming that log file; on zero exit
it returns without error. -/
theorem compile_error_log_spec (code filename tmpdir : String)
    (run : CompletedProcess) :
    (run.returncode ≠ 0 →
      FileWrite.mk "latex_error.log" run.output ∈
          (LatexCompiler.compile code filename tmpdir run).1 ∧
        (LatexCompiler.compile code filename tmpdir run).2 =
          Except.error (PyError.exception "`pdflatex` failed. See `latex_error.log`")) ∧
    (run.returncode = 0 →
      (LatexCompiler.compile code filename tmpdir run).2 = Except.ok ()) := by
  constructor <;> intro h <;> simp [LatexCompiler.compile, h]

theorem compile_error_log_spec_witness :
    (FileWrite.mk "latex_error.log" "! LaTeX Error." ∈
        (LatexCompiler.compile "\\bad" "circuit" "/tmp/t"
          (CompletedProcess.mk 1 "! LaTeX Error.")).1 ∧
      (LatexCompiler.compile "\\bad" "circuit" "/tmp/t"
          (CompletedProcess.mk 1 "! LaTeX Error.")).2 =
        Except.error (PyError.exception "`pdflatex` failed. See `latex_error.log`")) :=
  (compile_error_log_spec "\\bad" "circuit" "/tmp/t"
    (CompletedProcess.mk 1 "! LaTeX Error.")).1 (by decide)

/-- C10: constructing a `LatexCompiler` fails exactly when the `pdflatex`
probe raises `FileNotFoundError` (the tool is not discoverable); whenever the
probe completes — with any exit code — construction succeeds. -/
theorem latex_compiler_init_spec (r : VersionRunOutcome) :
    ((∃ e, LatexCompiler.init r = Except.error e) ↔
        r = VersionRunOutcome.fileNotFound) ∧
    (LatexCompiler.has_pdflatex r = false ↔ r = VersionRunOutcome.fileNotFound) := by
  cases r <;> simp [LatexCompiler.init, LatexCompiler.has_pdflatex]
